import Mathlib

/-!
# Verification of the paradex-rs client core

Shallow embedding of the paradex-rs repository (message signing protocol,
REST error handling, and the websocket session manager), with theorems
settling the specification claims.

Field elements (`Felt`) are modelled as natural numbers below the STARK
prime; machine integers carry explicit range conditions.
-/

namespace Paradex

/-- The STARK field prime `2^251 + 17·2^192 + 1`. -/
def PRIME : Nat := 2 ^ 251 + 17 * 2 ^ 192 + 1

/-! ## Keccak-256 (as used by `starknet_keccak`) -/

/-- 64-bit left rotation. -/
def rotl64 (x n : Nat) : Nat :=
  ((x <<< n) % 2 ^ 64) ||| (x >>> (64 - n))

/-- One step of the degree-8 LFSR (`x^8 + x^6 + x^5 + x^4 + 1`) generating
the Keccak round-constant bit sequence. -/
def rcStep (r : Nat) : Nat :=
  let r2 := r * 2
  if r2 ≥ 256 then r2 % 256 ^^^ 0x71 else r2

def rcBitGo : Nat → Nat → Nat
  | 0, r => r
  | n + 1, r => rcBitGo n (rcStep r)

/-- `rc(t)` of the Keccak reference: bit 0 of the LFSR iterated `t` times
from 1. -/
def rcBit (t : Nat) : Nat := rcBitGo t 1 % 2

/-- Keccak round constants, generated per FIPS 202:
`RC[i]` has `rc(7i + j)` at bit position `2^j - 1` for `j = 0 … 6`. -/
def keccakRC : List Nat :=
  (List.range 24).map fun i =>
    (List.range 7).foldl (fun acc j => acc + rcBit (7 * i + j) * 2 ^ (2 ^ j - 1)) 0

/-- The ρ-offset walk: starting from lane (1,0), step `t` assigns rotation
`(t+1)(t+2)/2 mod 64` and moves to `(y, (2x+3y) mod 5)`.  Produces
`(flat index, rotation)` pairs; lane (0,0) keeps rotation 0. -/
def rotPairsGo : Nat → Nat → Nat → Nat → List (Nat × Nat)
  | 0, _, _, _ => []
  | fuel + 1, t, x, y =>
    (x + 5 * y, (t + 1) * (t + 2) / 2 % 64) ::
      rotPairsGo fuel (t + 1) y ((2 * x + 3 * y) % 5)

/-- Rotation offset of the lane at flat index `i` (`x + 5*y`). -/
def keccakRotAt (i : Nat) : Nat :=
  ((rotPairsGo 24 0 1 0).lookup i).getD 0

/-- One Keccak-f[1600] round on a 25-lane state (lane `i` is at `x + 5*y`). -/
def keccakRound (st : List Nat) (rc : Nat) : List Nat :=
  let A := fun i => st.getD i 0
  let C := fun x => A x ^^^ A (x + 5) ^^^ A (x + 10) ^^^ A (x + 15) ^^^ A (x + 20)
  let D := fun x => C ((x + 4) % 5) ^^^ rotl64 (C ((x + 1) % 5)) 1
  let st1 := (List.range 25).map fun i => A i ^^^ D (i % 5)
  let A1 := fun i => st1.getD i 0
  let st2 := (List.range 25).map fun j =>
    let xp := j % 5
    let yp := j / 5
    let x := (xp + 3 * yp) % 5
    let y := xp
    rotl64 (A1 (x + 5 * y)) (keccakRotAt (x + 5 * y))
  let B := fun i => st2.getD i 0
  let st3 := (List.range 25).map fun j =>
    let x := j % 5
    let y := j / 5
    B j ^^^ (((2 ^ 64 - 1) ^^^ B ((x + 1) % 5 + 5 * y)) &&& B ((x + 2) % 5 + 5 * y))
  st3.set 0 (st3.getD 0 0 ^^^ rc)

/-- The full Keccak-f[1600] permutation (24 rounds). -/
def keccakF (st : List Nat) : List Nat :=
  keccakRC.foldl keccakRound st

/-- Split a byte list into chunks of 136 bytes (`fuel`-bounded structural
recursion so that the definition is kernel-reducible). -/
def toBlocks : Nat → List Nat → List (List Nat)
  | 0, _ => []
  | _, [] => []
  | fuel + 1, bytes => bytes.take 136 :: toBlocks fuel (bytes.drop 136)

/-- Little-endian bytes to a 64-bit lane. -/
def bytesToLane (bs : List Nat) : Nat :=
  bs.foldr (fun b acc => acc * 256 + b) 0

/-- XOR a 136-byte rate block into the first 17 lanes of the state. -/
def xorBlock (st block : List Nat) : List Nat :=
  (List.range 25).map fun i =>
    st.getD i 0 ^^^ (if i < 17 then bytesToLane ((block.drop (8 * i)).take 8) else 0)

/-- Keccak-256 of a byte string, as a big-endian 256-bit integer
(Keccak multi-rate padding `0x01 … 0x80`, rate 136). -/
def keccak256 (msg : List Nat) : Nat :=
  let r := 136
  let padLen := r - msg.length % r
  let padded :=
    if padLen = 1 then msg ++ [0x81]
    else msg ++ [0x01] ++ List.replicate (padLen - 2) 0 ++ [0x80]
  let blocks := toBlocks (padded.length + 1) padded
  let final := blocks.foldl (fun s b => keccakF (xorBlock s b)) (List.replicate 25 0)
  let digest := ((List.range 4).map fun l =>
    (List.range 8).map fun k => (final.getD l 0 >>> (8 * k)) % 256).flatten
  digest.foldl (fun acc b => acc * 256 + b) 0

/-- ASCII bytes of a string (all strings used by the client are ASCII). -/
def strBytes (s : String) : List Nat :=
  s.toList.map Char.toNat

/-- `starknet_keccak`: Keccak-256 of the input masked to its low 250 bits. -/
def starknetKeccak (s : String) : Nat :=
  keccak256 (strBytes s) % 2 ^ 250

/-! ## Errors (src/error.rs) -/

/-- The crate's error enum (`src/error.rs`); status codes are modelled as
naturals, string payloads kept as strings. -/
inductive Error where
  | WebSocketSend (msg : String)
  | JsonParseError (msg : String)
  | RestError (msg : String)
  | RestEmptyResponse
  | DeserializationError (msg : String)
  | StarknetError (msg : String)
  | TypeConversionError (msg : String)
  | TimeError (msg : String)
  | MissingPrivateKey
  | ParadexError (status_code : Nat) (error : String) (message : String)
  | HTTPError (status_code : Nat)
  deriving DecidableEq, Repr

/-! ## Short strings (`cairo_short_string_to_felt`) -/

/-- `cairo_short_string_to_felt`: an ASCII string of at most 31 characters,
big-endian byte-encoded as a field element; errors otherwise.  (The Rust
call sites wrap the encoding error into `Error::StarknetError`.) -/
def shortStringFelt (s : String) : Except Error Nat :=
  if s.toList.length > 31 then .error (.StarknetError "StringTooLong")
  else if ¬ s.toList.all (fun c => c.toNat < 128) then
    .error (.StarknetError "NonAsciiCharacter")
  else .ok (s.toList.foldl (fun acc c => acc * 256 + c.toNat) 0)

/-! ## Pedersen hash over the STARK curve

`starknet_crypto`'s Pedersen hash: with shift point `E` and constant points
`P1 … P4` on the curve `y² = x³ + x + β`,
`H(a,b) = x(E + a_low·P1 + a_high·P2 + b_low·P3 + b_high·P4)` where `a_low`
is the low 248 bits of `a` and `a_high` the remaining high bits.
Points are computed in Jacobian coordinates. -/

def fmul (a b : Nat) : Nat := a * b % PRIME
def fadd (a b : Nat) : Nat := (a + b) % PRIME
def fsub (a b : Nat) : Nat := (a + (PRIME - b)) % PRIME

/-- Jacobian point `(X : Y : Z)`; `Z = 0` encodes the point at infinity. -/
structure JPoint where
  X : Nat
  Y : Nat
  Z : Nat
  deriving Repr, DecidableEq

def jInf : JPoint := ⟨1, 1, 0⟩

/-- Jacobian doubling on `y² = x³ + x + β` (curve parameter a = 1). -/
def jdouble (pt : JPoint) : JPoint :=
  if pt.Z = 0 then pt
  else if pt.Y = 0 then jInf
  else
    let ys2 := fmul pt.Y pt.Y
    let S := fmul 4 (fmul pt.X ys2)
    let z2 := fmul pt.Z pt.Z
    let M := fadd (fmul 3 (fmul pt.X pt.X)) (fmul z2 z2)
    let X3 := fsub (fmul M M) (fmul 2 S)
    let Y3 := fsub (fmul M (fsub S X3)) (fmul 8 (fmul ys2 ys2))
    let Z3 := fmul 2 (fmul pt.Y pt.Z)
    ⟨X3, Y3, Z3⟩

/-- Jacobian addition. -/
def jadd (p q : JPoint) : JPoint :=
  if p.Z = 0 then q
  else if q.Z = 0 then p
  else
    let z1z1 := fmul p.Z p.Z
    let z2z2 := fmul q.Z q.Z
    let u1 := fmul p.X z2z2
    let u2 := fmul q.X z1z1
    let s1 := fmul p.Y (fmul q.Z z2z2)
    let s2 := fmul q.Y (fmul p.Z z1z1)
    if u1 = u2 then
      if s1 ≠ s2 then jInf else jdouble p
    else
      let h := fsub u2 u1
      let r := fsub s2 s1
      let hh := fmul h h
      let hhh := fmul h hh
      let v := fmul u1 hh
      let X3 := fsub (fsub (fmul r r) hhh) (fmul 2 v)
      let Y3 := fsub (fmul r (fsub v X3)) (fmul s1 hhh)
      let Z3 := fmul h (fmul p.Z q.Z)
      ⟨X3, Y3, Z3⟩

/-- Fuel-bounded double-and-add scalar multiplication helper. -/
def smulGo : Nat → Nat → JPoint → JPoint → JPoint
  | 0, _, _, acc => acc
  | fuel + 1, k, base, acc =>
    if k = 0 then acc
    else smulGo fuel (k / 2) (jdouble base) (if k % 2 = 1 then jadd acc base else acc)

/-- Scalar multiplication `k · pt` (k < 2^256). -/
def smul (k : Nat) (pt : JPoint) : JPoint :=
  smulGo 256 k pt jInf

/-- Fuel-bounded modular exponentiation. -/
def powModGo : Nat → Nat → Nat → Nat → Nat
  | 0, _, _, acc => acc
  | fuel + 1, b, e, acc =>
    if e = 0 then acc
    else powModGo fuel (b * b % PRIME) (e / 2) (if e % 2 = 1 then acc * b % PRIME else acc)

def powMod (b e : Nat) : Nat := powModGo 256 (b % PRIME) e 1

/-- Affine x-coordinate of a Jacobian point (inverse via Fermat). -/
def toAffineX (pt : JPoint) : Nat :=
  fmul pt.X (powMod (fmul pt.Z pt.Z) (PRIME - 2))

/-- Pedersen shift point. -/
def pedersenShift : JPoint :=
  ⟨0x49ee3eba8c1600700ee1b87eb599f16716b0b1022947733551fde4050ca6804,
   0x3ca0cfe4b3bc6ddf346d49d06ea0ed34e621062c0e056c1d0405d266e10268a, 1⟩

def pedersenP1 : JPoint :=
  ⟨0x234287dcbaffe7f969c748655fca9e58fa8120b6d56eb0c1080d17957ebe47b,
   0x3b056f100f96fb21e889527d41f4e39940135dd7a6c94cc6ed0268ee89e5615, 1⟩

def pedersenP2 : JPoint :=
  ⟨0x4fa56f376c83db33f9dab2656558f3399099ec1de5e3018b7a6932dba8aa378,
   0x3fa0984c931c9e38113e0c0e47e4401562761f92a7a23b45168f4e80ff5b54d, 1⟩

def pedersenP3 : JPoint :=
  ⟨0x4ba4cc166be8dec764910f75b45f74b40c690c74709e90f3aa372f0bd2d6997,
   0x40301cf5c1751f4b971e46c4ede85fcac5c59a5ce5ae7c48151f27b24b219c, 1⟩

def pedersenP4 : JPoint :=
  ⟨0x54302dcb0e6cc1c6e44cca8f61a63bb2ca65048d53fb325d36ff12c49a58202,
   0x1b77b3e37d13504b348046268d8ae25ce98ad783c25561a879dcc77e99c2426, 1⟩

/-- The Pedersen hash of two field elements. -/
def pedersen (a b : Nat) : Nat :=
  let aLow := a % 2 ^ 248
  let aHigh := a / 2 ^ 248
  let bLow := b % 2 ^ 248
  let bHigh := b / 2 ^ 248
  toAffineX (jadd (jadd (jadd (jadd pedersenShift (smul aLow pedersenP1))
    (smul aHigh pedersenP2)) (smul bLow pedersenP3)) (smul bHigh pedersenP4))

/-- `starknet_core::crypto::compute_hash_on_elements`: chained Pedersen hash
starting at 0, finalised with the element count. -/
def computeHashOnElements (data : List Nat) : Nat :=
  pedersen (data.foldl pedersen 0) data.length

/-! ## `domain_hash` (src/message.rs) -/

/-- `domain_hash(chain_id)` from `src/message.rs`: Pedersen chain hash of the
domain type hash, short-string "Paradex", the chain id, and version 1 — in
that order (chainId deliberately before version).  The `#[cached]` LRU
wrapper is value-transparent and omitted. -/
def domain_hash (chain_id : Nat) : Except Error Nat := do
  let domain_name_hash :=
    starknetKeccak "StarkNetDomain(name:felt,chainId:felt,version:felt)"
  let name ← shortStringFelt "Paradex"
  .ok (computeHashOnElements [domain_name_hash, name, chain_id, 1])

/-! ## Order data model (src/structs.rs) -/

/-- `rust_decimal::Decimal`: a scaled integer `m / 10^scale`.  The struct
itself is an unbounded value type; the Rust representation invariant
(`|m| < 2^96`, `scale ≤ 28`) is captured by `Decimal.wf`, and multiplication
overflow of the 96-bit mantissa is classified by `quantizeOutcome` below. -/
structure Decimal where
  m : Int
  scale : Nat
  deriving DecidableEq, Repr

/-- The `rust_decimal` representation invariant: a 96-bit mantissa and a
scale of at most 28.  Every value constructible in Rust satisfies this. -/
def Decimal.wf (d : Decimal) : Prop :=
  d.m.natAbs < 2 ^ 96 ∧ d.scale ≤ 28

instance (d : Decimal) : Decidable d.wf :=
  inferInstanceAs (Decidable (d.m.natAbs < 2 ^ 96 ∧ d.scale ≤ 28))

/-- Integer division truncating toward zero (`Decimal::trunc` semantics). -/
def truncDiv (m : Int) (d : Nat) : Int :=
  if 0 ≤ m then ((m.toNat / d : Nat) : Int) else -((m.natAbs / d : Nat) : Int)

/-- `rust_decimal`'s `ToPrimitive::to_i64`: truncate toward zero, then
`None` unless the result fits a 64-bit signed integer. -/
def Decimal.to_i64 (d : Decimal) : Option Int :=
  let t := truncDiv d.m (10 ^ d.scale)
  if -(2 ^ 63) ≤ t ∧ t ≤ 2 ^ 63 - 1 then some t else none

/-- `value * quantize_factor` with `quantize_factor = 10^8` (scale 0),
as exact arithmetic.  This equals the Rust product only in the regime
`quantizeExact` (product mantissa below `2^96`); outside it the Rust `Mul`
rescales with rounding or panics — see `quantizeOutcome`. -/
def Decimal.quantize (d : Decimal) : Decimal := ⟨d.m * 10 ^ 8, d.scale⟩

/-- The scaled-and-truncated i64 of `(value * 10^8)` under exact
multiplication, as in `(value * quantize_factor).to_i64()` when the
product stays within the 96-bit mantissa. -/
def quantizeToI64 (d : Decimal) : Option Int := d.quantize.to_i64

/-- The product `m * 10^8` fits the 96-bit mantissa, so `rust_decimal`'s
multiplication is exact (no rescaling, no rounding, no panic). -/
def quantizeExact (d : Decimal) : Prop :=
  (d.m * 10 ^ 8).natAbs < 2 ^ 96

instance (d : Decimal) : Decidable (quantizeExact d) :=
  inferInstanceAs (Decidable ((d.m * 10 ^ 8).natAbs < 2 ^ 96))

/-- Classification of `value * Decimal(10^8)` under `rust_decimal`'s
bounded `Mul` (for `wf` inputs).  `exact`: the 192-bit intermediate product
fits the 96-bit mantissa and the result is the exact scaled integer.
`panics`: the product overflows and the scale is 0, so no fractional digit
can be dropped — `checked_mul` returns `None` and the `*` operator panics,
aborting the call.  `lossyOrPanic`: the product overflows with a nonzero
scale — the Rust code repeatedly divides by 10 (dropping fractional digits,
with a final rounding step) and panics if even scale-0 still overflows;
the rounded continuation is deliberately left outside the model. -/
inductive QuantizeOutcome where
  | exact (d : Decimal)
  | lossyOrPanic
  | panics
  deriving DecidableEq, Repr

def quantizeOutcome (d : Decimal) : QuantizeOutcome :=
  if (d.m * 10 ^ 8).natAbs < 2 ^ 96 then .exact ⟨d.m * 10 ^ 8, d.scale⟩
  else if d.scale = 0 then .panics
  else .lossyOrPanic

/-- The observable fate of a Rust call that may abort: a normal return, a
process-aborting panic, or a continuation after a lossy rescale that the
model does not determine further. -/
inductive RustOutcome (α : Type) where
  | returns (v : Except Error α)
  | unmodelled
  | panics

/-- The price component quantizes into an i64 (an absent price is 0 and
always fits). -/
def priceFits (p : Option Decimal) : Prop :=
  match p with
  | some v => quantizeToI64 v ≠ none
  | none => True

instance (p : Option Decimal) : Decidable (priceFits p) :=
  match p with
  | some v => inferInstanceAs (Decidable (quantizeToI64 v ≠ none))
  | none => inferInstanceAs (Decidable True)

/-- Conversion of an `i64` into a field element (`i64::into::<Felt>()`):
negative values map to `PRIME - |v|`. -/
def i64_to_felt (v : Int) : Nat :=
  if 0 ≤ v then v.toNat % PRIME else (PRIME - v.natAbs % PRIME) % PRIME

inductive Side where
  | BUY
  | SELL
  deriving DecidableEq, Repr

/-- `Side::felt` (src/structs.rs): BUY = 1, SELL = 2. -/
def Side.felt : Side → Nat
  | .BUY => 1
  | .SELL => 2

inductive OrderType where
  | MARKET
  | LIMIT
  | STOP_MARKET
  | STOP_LIMIT
  | TAKE_PROFIT_LIMIT
  | TAKE_PROFIT_MARKET
  | STOP_LOSS_MARKET
  | STOP_LOSS_LIMIT
  deriving DecidableEq, Repr

def OrderType.name : OrderType → String
  | .MARKET => "MARKET"
  | .LIMIT => "LIMIT"
  | .STOP_MARKET => "STOP_MARKET"
  | .STOP_LIMIT => "STOP_LIMIT"
  | .TAKE_PROFIT_LIMIT => "TAKE_PROFIT_LIMIT"
  | .TAKE_PROFIT_MARKET => "TAKE_PROFIT_MARKET"
  | .STOP_LOSS_MARKET => "STOP_LOSS_MARKET"
  | .STOP_LOSS_LIMIT => "STOP_LOSS_LIMIT"

/-- `OrderType::felt` (src/structs.rs): short-string encoding of the
variant name. -/
def OrderType.felt (t : OrderType) : Except Error Nat :=
  shortStringFelt t.name

inductive OrderInstruction where
  | GTC
  | IOC
  | POST_ONLY
  | RPI
  deriving DecidableEq, Repr

inductive OrderFlags where
  | REDUCE_ONLY
  | STOP_CONDITION_BELOW_TRIGGER
  | STOP_CONDITION_ABOVE_TRIGGER
  | INTERACTIVE
  | TARGET_STRATEGY_VWAP
  deriving DecidableEq, Repr

inductive STPType where
  | EXPIRE_MAKER
  | EXPIRE_TAKER
  | EXPIRE_BOTH
  deriving DecidableEq, Repr

structure OrderRequest where
  instruction : OrderInstruction
  market : String
  price : Option Decimal
  side : Side
  size : Decimal
  order_type : OrderType
  client_id : Option String
  flags : List OrderFlags
  recv_window : Option Nat
  stp : Option STPType
  trigger_price : Option Decimal
  deriving DecidableEq, Repr

structure ModifyOrderRequest where
  id : String
  market : String
  price : Option Decimal
  side : Side
  size : Decimal
  order_type : OrderType
  deriving DecidableEq, Repr

/-! ## Order signing (src/message.rs) -/

/-- Short-string encoding of "StarkNet Message" (the crate stores it as a
`Felt::from_raw` Montgomery constant with that documented value). -/
def STARKNET_MESSAGE_PREFIX : Nat := 0x537461726b4e6574204d657373616765

def ORDER_TYPE_HASH : Nat :=
  starknetKeccak "Order(timestamp:felt,market:felt,side:felt,orderType:felt,size:felt,price:felt)"

def MODIFY_ORDER_TYPE_HASH : Nat :=
  starknetKeccak
    "ModifyOrder(timestamp:felt,market:felt,side:felt,orderType:felt,size:felt,price:felt,id:felt)"

/-- `str_to_felt` (src/message.rs): an all-digit string parses as a decimal
numeral, anything else as a short string. -/
def str_to_felt (s : String) : Except Error Nat :=
  if s.toList.all (fun c => c.isDigit) then
    if s.toList.isEmpty then .error (.StarknetError "InvalidCharacter")
    else .ok ((s.toList.foldl (fun acc c => acc * 10 + (c.toNat - 48)) 0) % PRIME)
  else shortStringFelt s

/-- `sign_order` (src/message.rs) up to and including the final digest
(`hasher.finalize()`).  The trailing ECDSA `signing_key.sign(&hash)` call is
outside the embedding: it runs strictly after every failure point modelled
here, so the error behaviour of the Rust function coincides with this
model's.  `PedersenHasher` update/finalize over n elements equals
`compute_hash_on_elements`. -/
def sign_order (o : OrderRequest) (signature_timestamp_ms chain_id address : Nat) :
    Except Error Nat := do
  let price_scaled : Int ←
    match o.price with
    | some v =>
      match quantizeToI64 v with
      | some x => Except.ok x
      | none => Except.error (.TypeConversionError "Could not convert order price to i64")
    | none => Except.ok 0
  let size_scaled : Int ←
    match quantizeToI64 o.size with
    | some x => Except.ok x
    | none => Except.error (.TypeConversionError "Could not convert order size to i64")
  let market ← shortStringFelt o.market
  let order_type_felt ← o.order_type.felt
  let order_hash := computeHashOnElements
    [ORDER_TYPE_HASH, signature_timestamp_ms, market, o.side.felt, order_type_felt,
      i64_to_felt size_scaled, i64_to_felt price_scaled]
  let dh ← domain_hash chain_id
  .ok (computeHashOnElements [STARKNET_MESSAGE_PREFIX, dh, address, order_hash])

/-- `sign_modify_order` (src/message.rs), modelled like `sign_order`; the
modify hash additionally folds in the order id via `str_to_felt`. -/
def sign_modify_order (o : ModifyOrderRequest)
    (signature_timestamp_ms chain_id address : Nat) : Except Error Nat := do
  let price_scaled : Int ←
    match o.price with
    | some v =>
      match quantizeToI64 v with
      | some x => Except.ok x
      | none => Except.error (.TypeConversionError "Could not convert order price to i64")
    | none => Except.ok 0
  let size_scaled : Int ←
    match quantizeToI64 o.size with
    | some x => Except.ok x
    | none => Except.error (.TypeConversionError "Could not convert order size to i64")
  let market ← shortStringFelt o.market
  let order_type_felt ← o.order_type.felt
  let id_felt ← str_to_felt o.id
  let order_hash := computeHashOnElements
    [ MODIFY_ORDER_TYPE_HASH, signature_timestamp_ms, market, o.side.felt, order_type_felt,
      i64_to_felt size_scaled, i64_to_felt price_scaled, id_felt]
  let dh ← domain_hash chain_id
  .ok (computeHashOnElements [STARKNET_MESSAGE_PREFIX, dh, address, order_hash])

/-- The result carries the `TypeConversionError` kind. -/
def isTypeConvError {α : Type} : Except Error α → Prop
  | .error (.TypeConversionError _) => True
  | _ => False

instance {α : Type} (r : Except Error α) : Decidable (isTypeConvError r) := by
  unfold isTypeConvError
  split <;> infer_instance

/-- `sign_order` under `rust_decimal`'s bounded multiplication, following
the source's evaluation order: the price multiplication runs first, and a
failing price `to_i64` returns the conversion error before the size
multiplication is ever evaluated; only then does the size multiplication
run.  When every multiplication reached is exact, the call returns exactly
what the exact-arithmetic `sign_order` model computes; a scale-0 overflow
panics; an overflow absorbed by rescaling makes the continuation (a
rounded operand) unmodelled. -/
def sign_order_outcome (o : OrderRequest)
    (signature_timestamp_ms chain_id address : Nat) : RustOutcome Nat :=
  match o.price with
  | some v =>
    match quantizeOutcome v with
    | .panics => .panics
    | .lossyOrPanic => .unmodelled
    | .exact vq =>
      if vq.to_i64 = none then
        .returns (sign_order o signature_timestamp_ms chain_id address)
      else
        match quantizeOutcome o.size with
        | .panics => .panics
        | .lossyOrPanic => .unmodelled
        | .exact _ =>
          .returns (sign_order o signature_timestamp_ms chain_id address)
  | none =>
    match quantizeOutcome o.size with
    | .panics => .panics
    | .lossyOrPanic => .unmodelled
    | .exact _ =>
      .returns (sign_order o signature_timestamp_ms chain_id address)

/-- `sign_modify_order` under `rust_decimal`'s bounded multiplication,
classified exactly like `sign_order_outcome`. -/
def sign_modify_order_outcome (o : ModifyOrderRequest)
    (signature_timestamp_ms chain_id address : Nat) : RustOutcome Nat :=
  match o.price with
  | some v =>
    match quantizeOutcome v with
    | .panics => .panics
    | .lossyOrPanic => .unmodelled
    | .exact vq =>
      if vq.to_i64 = none then
        .returns (sign_modify_order o signature_timestamp_ms chain_id address)
      else
        match quantizeOutcome o.size with
        | .panics => .panics
        | .lossyOrPanic => .unmodelled
        | .exact _ =>
          .returns (sign_modify_order o signature_timestamp_ms chain_id address)
  | none =>
    match quantizeOutcome o.size with
    | .panics => .panics
    | .lossyOrPanic => .unmodelled
    | .exact _ =>
      .returns (sign_modify_order o signature_timestamp_ms chain_id address)

/-- The call returned normally with the `TypeConversionError` kind (a
panic or an unmodelled continuation is not such a failure). -/
def returnsTypeConvError {α : Type} : RustOutcome α → Prop
  | .returns r => isTypeConvError r
  | _ => False

instance {α : Type} (r : RustOutcome α) : Decidable (returnsTypeConvError r) := by
  unfold returnsTypeConvError
  split <;> infer_instance

/-! ## Signature serialization and the create-order body
(src/structs.rs, src/rest.rs) -/

/-- The wire `Order` struct (src/structs.rs): an `OrderRequest` plus the
signature pair and signing timestamp. -/
structure Order where
  instruction : OrderInstruction
  market : String
  price : Option Decimal
  side : Side
  signature : Nat × Nat
  signature_timestamp : Nat
  size : Decimal
  order_type : OrderType
  client_id : Option String
  flags : List OrderFlags
  recv_window : Option Nat
  stp : Option STPType
  trigger_price : Option Decimal
  deriving DecidableEq, Repr

/-- `OrderRequest::into_order` (src/structs.rs). -/
def OrderRequest.into_order (o : OrderRequest) (signature : Nat × Nat)
    (signature_timestamp : Nat) : Order :=
  { instruction := o.instruction, market := o.market, price := o.price,
    side := o.side, signature := signature,
    signature_timestamp := signature_timestamp, size := o.size,
    order_type := o.order_type, client_id := o.client_id, flags := o.flags,
    recv_window := o.recv_window, stp := o.stp,
    trigger_price := o.trigger_price }

/-- `serialize_signature_as_string` (src/structs.rs): the signature field is
serialized as the JSON string `["r","s"]` with `to_bigint()` decimal
rendering of each component. -/
def serialize_signature_as_string (value : Nat × Nat) : String :=
  "[\"" ++ toString value.1 ++ "\",\"" ++ toString value.2 ++ "\"]"

/-- The possible JSON bodies of the POST to `/v1/orders`. -/
inductive RequestBody where
  | orderPayload (o : Order)
  | bareSignature (sig : Nat × Nat)
  deriving DecidableEq, Repr

/-- The body `create_order` (src/rest.rs:244-259) hands to `Method::Post`,
exactly as written: the variable bound from `sign_order` — a raw signature
pair — is posted directly; `into_order` is never called on the REST path
(the snapshot also fails to typecheck there, since `sign_order` expects
`&OrderRequest` and returns `Signature`, not an order payload). -/
def create_order_body (sig : Nat × Nat) : RequestBody :=
  .bareSignature sig

/-! ## REST request plumbing (src/rest.rs) -/

/-- `Client::request` (src/rest.rs:506-557) after the transport layer.
Inputs: a transport failure (`send()`/`text()` error) if any, the response
status and body text, and the two deserializers (for `T` and for the
`{error, message}` body), modelled as oracles. -/
def rest_request {T : Type} (transport : Option String) (status : Nat)
    (text : String) (parse : String → Option T)
    (parse_rest_error : String → Option (String × String)) : Except Error T :=
  match transport with
  | some e => .error (.RestError e)
  | none =>
    if 200 ≤ status ∧ status < 300 then
      if text = "" then .error .RestEmptyResponse
      else
        match parse text with
        | some v => .ok v
        | none => .error (.DeserializationError text)
    else if text = "" then .error (.HTTPError status)
    else
      match parse_rest_error text with
      | some em => .error (.ParadexError status em.1 em.2)
      | none => .error (.DeserializationError text)

/-- `Client::request_auth`: fetch the JWT (any failure propagates), then
issue the request with the bearer header. -/
def request_auth {T : Type} (jwt : Except Error String) (transport : Option String)
    (status : Nat) (text : String) (parse : String → Option T)
    (parse_rest_error : String → Option (String × String)) : Except Error T :=
  match jwt with
  | .error e => .error e
  | .ok _ => rest_request transport status text parse parse_rest_error

/-- `Client::cancel_order` (src/rest.rs:274-283): DELETE the order, mapping
the internal empty-response error to success and passing every other
outcome through. -/
def cancel_order (jwt : Except Error String) (transport : Option String)
    (status : Nat) (text : String) (parse : String → Option Unit)
    (parse_rest_error : String → Option (String × String)) : Except Error Unit :=
  match request_auth jwt transport status text parse parse_rest_error with
  | .ok _ => .ok ()
  | .error .RestEmptyResponse => .ok ()
  | .error e => .error e

/-- `Client::cancel_order_by_client_id` (src/rest.rs:298-310): identical
handling on the by-client-id path. -/
def cancel_order_by_client_id (jwt : Except Error String)
    (transport : Option String) (status : Nat) (text : String)
    (parse : String → Option Unit)
    (parse_rest_error : String → Option (String × String)) : Except Error Unit :=
  match request_auth jwt transport status text parse parse_rest_error with
  | .ok _ => .ok ()
  | .error .RestEmptyResponse => .ok ()
  | .error e => .error e

/-! ## Websocket channels (src/ws/types.rs) -/

/-- The `Channel` tagged union (src/ws/types.rs:38-74). -/
inductive Channel where
  | MarketSummary
  | OrderBook (market_symbol : String) (channel_name : Option String)
      (refresh_rate : String) (price_tick : Option String)
  | OrderBookDeltas (market_symbol : String)
  | BBO (market_symbol : String)
  | Trades (market_symbol : String)
  | FundingData (market_symbol : Option String)
  | Orders (market_symbol : Option String)
  | Fills (market_symbol : Option String)
  | Position
  | Account
  | BalanceEvents
  | FundingPayments (market_symbol : Option String)
  deriving DecidableEq, Repr

/-- `Channel::channel_name` (src/ws/types.rs:76-143): the wire channel
name built from the variant's parameters. -/
def Channel.channel_name : Channel → String
  | .MarketSummary => "markets_summary"
  | .OrderBook ms cn rr pt =>
      "order_book." ++ ms ++ "." ++ cn.getD "snapshot" ++ "@15@" ++ rr ++
        (match pt with
         | some tick => "@" ++ tick
         | none => "")
  | .OrderBookDeltas ms => "order_book." ++ ms ++ ".deltas"
  | .BBO ms => "bbo." ++ ms
  | .Trades ms => "trades." ++ ms
  | .FundingData ms => "funding_data." ++ ms.getD "ALL"
  | .Orders ms => "orders." ++ ms.getD "ALL"
  | .Fills ms => "fills." ++ ms.getD "ALL"
  | .Position => "positions"
  | .Account => "account"
  | .BalanceEvents => "balance_events"
  | .FundingPayments ms => "funding_payments." ++ ms.getD "ALL"

/-! ## The websocket session manager (src/ws.rs)

The `_reader` task owns the subscription maps and the socket exclusively
and services one event per `select!` iteration; we model it as a step
function over an explicit event type.  Callbacks are opaque boxed closures
in Rust, identified here by their `Identifier`; an invocation
`callback(&msg)` is recorded as the pair `(identifier, msg)` in the step's
`delivered` trace.  `HashMap` iteration order is unspecified in Rust; the
model fixes insertion order, which none of the verified properties depend
on (they are per-identifier / per-channel counts). -/

/-- Decodability of the `data` attribute of an incoming notification with
respect to the receiving channel's payload type (`parse_notification`):
present-and-decodable, present-but-undecodable, or absent. -/
inductive RawData where
  | good
  | bad
  | missing
  deriving DecidableEq, Repr

/-- The `Message` union delivered to callbacks (src/ws/types.rs:14-36).
All typed payload variants are collapsed into `Data c` tagged by the
decoding channel — the claims under verification never inspect payload
contents. -/
inductive Message where
  | Connected
  | Disconnected
  | Unsubscribed
  | Error (e : Paradex.Error)
  | Data (c : Channel)
  deriving DecidableEq, Repr

/-- `Channel::to_message` via `parse_notification`: a decodable `data`
attribute produces the channel's typed variant, otherwise a
`Message::Error(JsonParseError)`. -/
def to_message (c : Channel) (rd : RawData) : Message :=
  match rd with
  | .good => .Data c
  | .bad => .Error (.JsonParseError "deserialization failed")
  | .missing => .Error (.JsonParseError "Notification missing data attribute")

/-- JSON-RPC requests the manager writes to the socket
(`request_channel` with methods "subscribe"/"unsubscribe", and the
`auth` request from `_connect`). -/
inductive WireRequest where
  | subscribe (channel : String) (id : Nat)
  | unsubscribe (channel : String) (id : Nat)
  | auth
  deriving DecidableEq, Repr

/-- Frames the manager can write to the socket.  Every send site in
src/ws.rs constructs `tungstenite::Message::text(..)`; the other frame
kinds exist in the transport library and are listed so that "no ping is
ever sent" is a meaningful statement. -/
inductive SentFrame where
  | text (r : WireRequest)
  | ping
  | pong
  | close
  deriving DecidableEq, Repr

def SentFrame.isPing : SentFrame → Bool
  | .ping => true
  | _ => false

/-- `WebsocketOperation` (src/ws.rs:215-219); the callback argument of
`Subscribe` is represented by the `Identifier`. -/
inductive WebsocketOperation where
  | Subscribe (c : Channel) (id : Nat)
  | Unsubscribe (id : Nat)
  | Stop
  deriving DecidableEq, Repr

/-- A parsed incoming text frame, by the branches of the `_reader` match:
a JSON-RPC notification (with its optional `channel` param), a success or
error response, an unparseable text, a transport-level Ping, or any other
frame kind. -/
inductive InFrame where
  | notif (channel : Option String) (data : RawData)
  | respOk (channel : Option String)
  | respErr
  | unparseable
  | ping
  | otherFrame
  deriving DecidableEq, Repr

/-- One read from `connection.next()`: a frame, an `Err(e)` transport
error, or end-of-stream (`None`).  `closed` carries the number of failed
`connect_async` attempts the subsequent `_connect` loop makes before one
succeeds (an environment input). -/
inductive SockEvent where
  | recv (f : InFrame)
  | recvErr
  | closed (connect_failures : Nat)
  deriving DecidableEq, Repr

/-- One `select!` arm firing. `cmdClosed` is `receiver.recv()` returning
`None` (all senders dropped); the loop ignores it. -/
inductive ReaderEvent where
  | sock (e : SockEvent)
  | cmd (op : WebsocketOperation)
  | cmdClosed
  deriving DecidableEq, Repr

/-- The `_reader` task's owned maps: `subscriptions_by_id` and
`subscriptions_by_channel` (src/ws.rs:350-354). -/
structure WsState where
  by_id : List (Nat × String)
  by_channel : List (String × (Bool × List (Channel × Nat)))
  deriving DecidableEq, Repr

def initWsState : WsState := ⟨[], []⟩

/-- Association-list lookup with decidable key equality. -/
def alookup {α β : Type} [DecidableEq α] : List (α × β) → α → Option β
  | [], _ => none
  | (a, b) :: rest, k => if a = k then some b else alookup rest k

/-- `HashMap::insert`: replace any existing binding for the key. -/
def aupsert {α β : Type} [DecidableEq α] (l : List (α × β)) (k : α) (v : β) :
    List (α × β) :=
  l.filter (fun p => p.1 ≠ k) ++ [(k, v)]

/-- In-place update of the value bound to an existing key (`get_mut`). -/
def aset {α β : Type} [DecidableEq α] (l : List (α × β)) (k : α) (v : β) :
    List (α × β) :=
  l.map fun p => if p.1 = k then (k, v) else p

/-- `HashMap::remove`. -/
def aerase {α β : Type} [DecidableEq α] (l : List (α × β)) (k : α) :
    List (α × β) :=
  l.filter (fun p => p.1 ≠ k)

/-- The observable effects of one `select!` iteration. -/
structure StepOut where
  state : WsState
  wire : List SentFrame
  delivered : List (Nat × Message)
  sleeps : List Nat
  running : Bool
  deriving DecidableEq, Repr

/-- One iteration of the `_reader` loop (src/ws.rs:345-512).
`has_private_client` reflects `rest_client.is_some() && is_private()`
(the re-auth request sent by `_connect`); `sleeps` records the 1-second
`tokio::time::sleep` calls made by the `_connect` retry loop. -/
def stepReader (has_private_client : Bool) (s : WsState) :
    ReaderEvent → StepOut
  | .sock (.recv f) =>
    match f with
    | .notif chOpt rd =>
      match chOpt with
      | some name =>
        match alookup s.by_channel name with
        | some (_conn, lst) =>
          match lst.head? with
          | some (c0, _) =>
            ⟨s, [], lst.map fun e => (e.2, to_message c0 rd), [], true⟩
          | none => ⟨s, [], [], [], true⟩
        | none => ⟨s, [], [], [], true⟩
      | none => ⟨s, [], [], [], true⟩
    | .respOk chOpt =>
      match chOpt with
      | some name =>
        match alookup s.by_channel name with
        | some (_conn, lst) =>
          ⟨⟨s.by_id, aset s.by_channel name (true, lst)⟩, [],
            lst.map fun e => (e.2, Message.Connected), [], true⟩
        | none => ⟨s, [], [], [], true⟩
      | none => ⟨s, [], [], [], true⟩
    | .respErr => ⟨s, [], [], [], true⟩
    | .unparseable => ⟨s, [], [], [], true⟩
    | .ping => ⟨s, [], [], [], true⟩
    | .otherFrame => ⟨s, [], [], [], true⟩
  | .sock .recvErr => ⟨s, [], [], [], true⟩
  | .sock (.closed fails) =>
    let discon :=
      (s.by_channel.map fun e => e.2.2.map fun m => (m.2, Message.Disconnected)).flatten
    let auth : List SentFrame := if has_private_client then [.text .auth] else []
    let resubs := s.by_channel.filterMap fun e =>
      match e.2.2.head? with
      | some (_, fid) => some (SentFrame.text (.subscribe e.1 fid))
      | none => none
    ⟨s, auth ++ resubs, discon, List.replicate fails 1, true⟩
  | .cmd (.Subscribe c id) =>
    let name := c.channel_name
    let new_by_id := aupsert s.by_id id name
    match alookup s.by_channel name with
    | some (conn, lst) =>
      ⟨⟨new_by_id, aset s.by_channel name (conn, lst ++ [(c, id)])⟩, [],
        if conn then [(id, Message.Connected)] else [], [], true⟩
    | none =>
      ⟨⟨new_by_id, s.by_channel ++ [(name, (false, [(c, id)]))]⟩,
        [.text (.subscribe name id)], [], [], true⟩
  | .cmd (.Unsubscribe id) =>
    match alookup s.by_id id with
    | none => ⟨s, [], [], [], true⟩
    | some name =>
      let new_by_id := aerase s.by_id id
      match alookup s.by_channel name with
      | none => ⟨⟨new_by_id, s.by_channel⟩, [], [], [], true⟩
      | some (conn, lst) =>
        match lst.findIdx? (fun e => e.2 = id) with
        | none => ⟨⟨new_by_id, s.by_channel⟩, [], [], [], true⟩
        | some i =>
          let lst' := lst.eraseIdx i
          if lst'.isEmpty then
            ⟨⟨new_by_id, aerase s.by_channel name⟩,
              [.text (.unsubscribe name id)], [(id, Message.Unsubscribed)], [], true⟩
          else
            ⟨⟨new_by_id, aset s.by_channel name (conn, lst')⟩, [],
              [(id, Message.Unsubscribed)], [], true⟩
  | .cmd .Stop => ⟨s, [], [], [], false⟩
  | .cmdClosed => ⟨s, [], [], [], true⟩

/-- Run the reader over a list of events, accumulating wire and delivery
traces; a `Stop` halts processing. -/
def runReader (has_private_client : Bool) (s : WsState) :
    List ReaderEvent → WsState × List SentFrame × List (Nat × Message)
  | [] => (s, [], [])
  | e :: rest =>
    let out := stepReader has_private_client s e
    if out.running then
      let r := runReader has_private_client out.state rest
      (r.1, out.wire ++ r.2.1, out.delivered ++ r.2.2)
    else (out.state, out.wire, out.delivered)

/-- All identifiers registered across channel records. -/
def idsOf (s : WsState) : List Nat :=
  (s.by_channel.map fun e => e.2.2.map fun m => m.2).flatten

/-- Wire channel names currently tracked. -/
def chanKeys (s : WsState) : List String :=
  s.by_channel.map fun e => e.1

/-- Well-formedness of the reader state (holds of every reachable state):
distinct record keys, non-empty member lists, and globally distinct
identifiers. -/
def WFState (s : WsState) : Prop :=
  (chanKeys s).Nodup ∧ (∀ e ∈ s.by_channel, e.2.2 ≠ []) ∧ (idsOf s).Nodup

instance (s : WsState) : Decidable (WFState s) :=
  inferInstanceAs (Decidable ((chanKeys s).Nodup ∧
    (∀ e ∈ s.by_channel, e.2.2 ≠ []) ∧ (idsOf s).Nodup))

/-- Subscribe requests for a given wire channel in a frame list. -/
def subCount (name : String) (w : List SentFrame) : Nat :=
  w.countP fun f =>
    match f with
    | .text (.subscribe n _) => n = name
    | _ => false

/-! ## Helper lemmas -/

@[simp] lemma priceFits_some (v : Decimal) :
    priceFits (some v) ↔ quantizeToI64 v ≠ none := Iff.rfl

@[simp] lemma priceFits_none : priceFits none := trivial

lemma ok_not_tce {α : Type} (v : α) : ¬ isTypeConvError (Except.ok v) := by
  simp [isTypeConvError]

lemma isTypeConvError_error {α : Type} (e : Error) :
    isTypeConvError (Except.error (α := α) e) ↔ ∃ m, e = .TypeConversionError m := by
  cases e <;> simp [isTypeConvError]

lemma bind_not_tce {α β : Type} {r : Except Error α} {f : α → Except Error β}
    (hr : ¬ isTypeConvError r) (hf : ∀ v, ¬ isTypeConvError (f v)) :
    ¬ isTypeConvError (r >>= f) := by
  cases r with
  | error e =>
    have hbe : (Except.error e >>= f) = Except.error e := rfl
    rw [hbe]
    intro h
    exact hr ((isTypeConvError_error e).mpr ((isTypeConvError_error e).mp h))
  | ok v =>
    have hbo : (Except.ok v >>= f) = f v := rfl
    rw [hbo]
    exact hf v

lemma shortStringFelt_not_tce (s : String) : ¬ isTypeConvError (shortStringFelt s) := by
  unfold shortStringFelt
  split
  · simp [isTypeConvError]
  · split <;> simp [isTypeConvError]

lemma orderTypeFelt_not_tce (t : OrderType) : ¬ isTypeConvError t.felt :=
  shortStringFelt_not_tce t.name

lemma str_to_felt_not_tce (s : String) : ¬ isTypeConvError (str_to_felt s) := by
  unfold str_to_felt
  split
  · split <;> simp [isTypeConvError]
  · exact shortStringFelt_not_tce s

lemma domain_hash_eq (c : Nat) :
    domain_hash c = .ok (computeHashOnElements
      [starknetKeccak "StarkNetDomain(name:felt,chainId:felt,version:felt)",
        0x50617261646578, c, 1]) := rfl

lemma domain_hash_not_tce (c : Nat) : ¬ isTypeConvError (domain_hash c) := by
  rw [domain_hash_eq]
  exact ok_not_tce _

/-! ## Claim theorems -/

set_option maxRecDepth 1000000 in
/-- Claim C1: `domain_hash(chain_id)` hashes exactly the four elements
{type-hash of "StarkNetDomain(name:felt,chainId:felt,version:felt)",
short-string("Paradex"), chain_id, 1} in the order name, chainId, version;
and on the chain id obtained by short-string-encoding
"PRIVATE_SN_PARACLEAR_MAINNET" it equals the published constant
`0x6f74f207280b65cf663fb8d7763fac1e7398cd6d7da5d7681dc300ee4278a0a`. -/
theorem domain_hash_field_order_and_mainnet_vector :
    (∀ chain_id : Nat, domain_hash chain_id = .ok (computeHashOnElements
      [starknetKeccak "StarkNetDomain(name:felt,chainId:felt,version:felt)",
        0x50617261646578, chain_id, 1])) ∧
    shortStringFelt "Paradex" = .ok 0x50617261646578 ∧
    shortStringFelt "PRIVATE_SN_PARACLEAR_MAINNET" =
      .ok 0x505249564154455f534e5f50415241434c4541525f4d41494e4e4554 ∧
    domain_hash 0x505249564154455f534e5f50415241434c4541525f4d41494e4e4554 =
      .ok 0x6f74f207280b65cf663fb8d7763fac1e7398cd6d7da5d7681dc300ee4278a0a := by
  refine ⟨domain_hash_eq, by rfl, by rfl, ?_⟩
  rfl

lemma sign_order_exact_tce_iff (o : OrderRequest) (ts cid addr : Nat) :
    isTypeConvError (sign_order o ts cid addr) ↔
      ¬(priceFits o.price ∧ quantizeToI64 o.size ≠ none) := by
  rcases hp : o.price with _ | v
  · rcases hs : quantizeToI64 o.size with _ | y
    · apply iff_of_true
      · unfold sign_order
        simp [hp, hs, Bind.bind, Except.bind, isTypeConvError]
      · simp [hp, hs, priceFits]
    · apply iff_of_false
      · unfold sign_order
        simp only [hp, hs]
        exact bind_not_tce (ok_not_tce _) fun p =>
          bind_not_tce (ok_not_tce _) fun z =>
            bind_not_tce (shortStringFelt_not_tce _) fun m =>
              bind_not_tce (orderTypeFelt_not_tce _) fun t =>
                bind_not_tce (domain_hash_not_tce _) fun d => ok_not_tce _
      · simp [hp, hs, priceFits]
  · rcases hq : quantizeToI64 v with _ | x
    · apply iff_of_true
      · unfold sign_order
        simp [hp, hq, Bind.bind, Except.bind, isTypeConvError]
      · simp [hp, hq, priceFits]
    · rcases hs : quantizeToI64 o.size with _ | y
      · apply iff_of_true
        · unfold sign_order
          simp [hp, hq, hs, Bind.bind, Except.bind, isTypeConvError]
        · simp [hp, hq, hs, priceFits]
      · apply iff_of_false
        · unfold sign_order
          simp only [hp, hq, hs]
          exact bind_not_tce (ok_not_tce _) fun p =>
            bind_not_tce (ok_not_tce _) fun z =>
              bind_not_tce (shortStringFelt_not_tce _) fun m =>
                bind_not_tce (orderTypeFelt_not_tce _) fun t =>
                  bind_not_tce (domain_hash_not_tce _) fun d => ok_not_tce _
        · simp [hp, hq, hs, priceFits]

lemma sign_modify_order_exact_tce_iff (o : ModifyOrderRequest) (ts cid addr : Nat) :
    isTypeConvError (sign_modify_order o ts cid addr) ↔
      ¬(priceFits o.price ∧ quantizeToI64 o.size ≠ none) := by
  rcases hp : o.price with _ | v
  · rcases hs : quantizeToI64 o.size with _ | y
    · apply iff_of_true
      · unfold sign_modify_order
        simp [hp, hs, Bind.bind, Except.bind, isTypeConvError]
      · simp [hp, hs, priceFits]
    · apply iff_of_false
      · unfold sign_modify_order
        simp only [hp, hs]
        exact bind_not_tce (ok_not_tce _) fun p =>
          bind_not_tce (ok_not_tce _) fun z =>
            bind_not_tce (shortStringFelt_not_tce _) fun m =>
              bind_not_tce (orderTypeFelt_not_tce _) fun t =>
                bind_not_tce (str_to_felt_not_tce _) fun i =>
                  bind_not_tce (domain_hash_not_tce _) fun d => ok_not_tce _
      · simp [hp, hs, priceFits]
  · rcases hq : quantizeToI64 v with _ | x
    · apply iff_of_true
      · unfold sign_modify_order
        simp [hp, hq, Bind.bind, Except.bind, isTypeConvError]
      · simp [hp, hq, priceFits]
    · rcases hs : quantizeToI64 o.size with _ | y
      · apply iff_of_true
        · unfold sign_modify_order
          simp [hp, hq, hs, Bind.bind, Except.bind, isTypeConvError]
        · simp [hp, hq, hs, priceFits]
      · apply iff_of_false
        · unfold sign_modify_order
          simp only [hp, hq, hs]
          exact bind_not_tce (ok_not_tce _) fun p =>
            bind_not_tce (ok_not_tce _) fun z =>
              bind_not_tce (shortStringFelt_not_tce _) fun m =>
                bind_not_tce (orderTypeFelt_not_tce _) fun t =>
                  bind_not_tce (str_to_felt_not_tce _) fun i =>
                    bind_not_tce (domain_hash_not_tce _) fun d => ok_not_tce _
        · simp [hp, hq, hs, priceFits]

lemma sign_order_absent_price_zero (o : OrderRequest) (ts cid addr : Nat)
    (hp : o.price = none) :
    sign_order o ts cid addr =
      sign_order { o with price := some ⟨0, 0⟩ } ts cid addr := by
  unfold sign_order
  simp [hp, quantizeToI64, Decimal.quantize, Decimal.to_i64, truncDiv]

lemma exact_quantizeOutcome (d : Decimal) (h : quantizeExact d) :
    quantizeOutcome d = .exact d.quantize := by
  unfold quantizeExact at h
  unfold quantizeOutcome
  rw [if_pos h]
  rfl

/-- Claim C2 (amended): in the regime where the quantizing multiplications
are exact — price and size are representable `rust_decimal` values
(`Decimal.wf`) and their mantissas scaled by `10^8` stay below `2^96`
(`quantizeExact`) — `sign_order` / `sign_modify_order` return normally, and
fail with the `TypeConversionError` kind exactly when the price or size
scaled by `10^8` and truncated does not fit a 64-bit signed integer (an
absent price is treated as 0 and the computation equals that with price 0).
Outside that regime the original claim fails: `rust_decimal`'s 96-bit `Mul`
rescales with rounding or panics — see the counterexample at
`Decimal::MAX`. -/
theorem sign_order_quantization_overflow_behaviour :
    (∀ (o : OrderRequest) (ts cid addr : Nat),
      (∀ v ∈ o.price, v.wf ∧ quantizeExact v) →
      o.size.wf → quantizeExact o.size →
      sign_order_outcome o ts cid addr = .returns (sign_order o ts cid addr) ∧
      (returnsTypeConvError (sign_order_outcome o ts cid addr) ↔
        ¬(priceFits o.price ∧ quantizeToI64 o.size ≠ none))) ∧
    (∀ (o : ModifyOrderRequest) (ts cid addr : Nat),
      (∀ v ∈ o.price, v.wf ∧ quantizeExact v) →
      o.size.wf → quantizeExact o.size →
      sign_modify_order_outcome o ts cid addr =
        .returns (sign_modify_order o ts cid addr) ∧
      (returnsTypeConvError (sign_modify_order_outcome o ts cid addr) ↔
        ¬(priceFits o.price ∧ quantizeToI64 o.size ≠ none))) ∧
    (∀ (o : OrderRequest) (ts cid addr : Nat), o.price = none →
      sign_order o ts cid addr =
        sign_order { o with price := some ⟨0, 0⟩ } ts cid addr) := by
  refine ⟨?_, ?_, sign_order_absent_price_zero⟩
  · intro o ts cid addr hp hsw hse
    have h2 := exact_quantizeOutcome o.size hse
    have hb : sign_order_outcome o ts cid addr =
        .returns (sign_order o ts cid addr) := by
      unfold sign_order_outcome
      rcases hpe : o.price with _ | v
      · simp [h2]
      · have hv := hp v (by simp [hpe])
        have h1 := exact_quantizeOutcome v hv.2
        simp only [h1, h2]
        split <;> rfl
    refine ⟨hb, ?_⟩
    rw [hb]
    show isTypeConvError (sign_order o ts cid addr) ↔ _
    exact sign_order_exact_tce_iff o ts cid addr
  · intro o ts cid addr hp hsw hse
    have h2 := exact_quantizeOutcome o.size hse
    have hb : sign_modify_order_outcome o ts cid addr =
        .returns (sign_modify_order o ts cid addr) := by
      unfold sign_modify_order_outcome
      rcases hpe : o.price with _ | v
      · simp [h2]
      · have hv := hp v (by simp [hpe])
        have h1 := exact_quantizeOutcome v hv.2
        simp only [h1, h2]
        split <;> rfl
    refine ⟨hb, ?_⟩
    rw [hb]
    show isTypeConvError (sign_modify_order o ts cid addr) ↔ _
    exact sign_modify_order_exact_tce_iff o ts cid addr

set_option maxRecDepth 10000 in
/-- Counterexample for C2 as stated: with `price = Decimal::MAX`
(mantissa `2^96 - 1`, scale 0) the scaled value does not fit an i64, yet
the quantizing multiplication overflows the 96-bit mantissa with no scale
digit to drop, so `sign_order` panics — it does not fail with the
`TypeConversionError` kind. -/
theorem sign_order_panics_on_decimal_max_counterexample :
    quantizeToI64 ⟨(2 : Int) ^ 96 - 1, 0⟩ = none ∧
    sign_order_outcome
      { instruction := .IOC, market := "BTC-USD-PERP",
        price := some ⟨(2 : Int) ^ 96 - 1, 0⟩, side := .BUY, size := ⟨1, 3⟩,
        order_type := .LIMIT, client_id := some "A", flags := [],
        recv_window := none, stp := none, trigger_price := none }
      123456789 5 9 = .panics ∧
    ¬ returnsTypeConvError (sign_order_outcome
      { instruction := .IOC, market := "BTC-USD-PERP",
        price := some ⟨(2 : Int) ^ 96 - 1, 0⟩, side := .BUY, size := ⟨1, 3⟩,
        order_type := .LIMIT, client_id := some "A", flags := [],
        recv_window := none, stp := none, trigger_price := none }
      123456789 5 9) := by
  refine ⟨by decide, by rfl, fun h => h⟩

/-- Witness for C2: a size of `10^11` quantizes exactly (`10^19 < 2^96`)
but exceeds `i64::MAX`, so the call returns the `TypeConversionError`
kind; and a concrete market order with absent price signs identically to
the same order with price 0. -/
theorem sign_order_quantization_overflow_behaviour_witness :
    returnsTypeConvError (sign_order_outcome
      { instruction := .IOC, market := "BTC-USD-PERP", price := none,
        side := .BUY, size := ⟨10 ^ 11, 0⟩, order_type := .MARKET,
        client_id := none, flags := [], recv_window := none, stp := none,
        trigger_price := none } 123456789 5 9) ∧
    sign_order
      { instruction := .IOC, market := "BTC-USD-PERP", price := none,
        side := .BUY, size := ⟨1, 3⟩, order_type := .MARKET,
        client_id := none, flags := [], recv_window := none, stp := none,
        trigger_price := none } 123456789 5 9 =
    sign_order
      { instruction := .IOC, market := "BTC-USD-PERP", price := some ⟨0, 0⟩,
        side := .BUY, size := ⟨1, 3⟩, order_type := .MARKET,
        client_id := none, flags := [], recv_window := none, stp := none,
        trigger_price := none } 123456789 5 9 :=
  ⟨((sign_order_quantization_overflow_behaviour.1 _ 123456789 5 9
      (fun v hv => absurd hv (by simp)) (by decide) (by decide)).2).mpr
      (by decide),
    sign_order_quantization_overflow_behaviour.2.2 _ 123456789 5 9 rfl⟩

/-- Claim C3 (code bug): as written, `create_order` posts the bare
signature pair returned by `sign_order` — never an order payload carrying
the signature — while the signature serializer (used by the `Order`
struct the REST path never builds) does render `["r","s"]` in base 10.
Evaluated at the signature produced by the crate's own `test_sign_order`
vector. -/
theorem create_order_posts_bare_signature_not_order :
    create_order_body
      (0x208ef0213a190f14b118a0becef75eedfb15f07b9d2b2ed7a03488ed02d07e1,
       0x7fc8c4600708096f0231dcbbdbb0b699b46c149e0d4a81c49e163ec913b9fe2) =
      RequestBody.bareSignature
        (0x208ef0213a190f14b118a0becef75eedfb15f07b9d2b2ed7a03488ed02d07e1,
         0x7fc8c4600708096f0231dcbbdbb0b699b46c149e0d4a81c49e163ec913b9fe2) ∧
    (∀ o : Order, create_order_body
      (0x208ef0213a190f14b118a0becef75eedfb15f07b9d2b2ed7a03488ed02d07e1,
       0x7fc8c4600708096f0231dcbbdbb0b699b46c149e0d4a81c49e163ec913b9fe2) ≠
      RequestBody.orderPayload o) ∧
    serialize_signature_as_string
      (0x208ef0213a190f14b118a0becef75eedfb15f07b9d2b2ed7a03488ed02d07e1,
       0x7fc8c4600708096f0231dcbbdbb0b699b46c149e0d4a81c49e163ec913b9fe2) =
      "[\"920410047048934144265122384528614421066028154182989205331925448885512505313\",\"3612403532138115712271352170844839164895997360209711781097284515342841520098\"]" := by
  refine ⟨rfl, ?_, by rfl⟩
  intro o
  simp [create_order_body]

/-- Claim C9 (amended): equal `Channel` values produce equal wire channel
names, but the converse fails — `channel_name` is not injective. -/
theorem channel_eq_implies_name_eq :
    (∀ a b : Channel, a = b → a.channel_name = b.channel_name) ∧
    (∃ a b : Channel, a ≠ b ∧ a.channel_name = b.channel_name) := by
  refine ⟨fun a b h => by rw [h], ?_⟩
  exact ⟨.FundingData (some "ALL"), .FundingData none, by decide, rfl⟩

/-- Witness for C9: the forward direction applied at a concrete pair. -/
theorem channel_eq_implies_name_eq_witness :
    (Channel.BBO "ETH-USD-PERP").channel_name =
      (Channel.BBO "ETH-USD-PERP").channel_name :=
  channel_eq_implies_name_eq.1 (Channel.BBO "ETH-USD-PERP")
    (Channel.BBO "ETH-USD-PERP") rfl

/-- Counterexample for C9: `FundingData(Some "ALL")` and
`FundingData(None)` are distinct `Channel` values with the same wire name
`funding_data.ALL`, so name equality does not imply value equality. -/
theorem channel_name_eq_not_injective_counterexample :
    Channel.FundingData (some "ALL") ≠ Channel.FundingData none ∧
    (Channel.FundingData (some "ALL")).channel_name =
      (Channel.FundingData none).channel_name := by
  exact ⟨by decide, rfl⟩

/-- Claim C10: `cancel_order` / `cancel_order_by_client_id` succeed when
the request layer reports the empty-response condition (2xx status, empty
body) or any success, and propagate every other error unchanged. -/
theorem cancel_order_empty_response_and_propagation :
    (∀ (tok : String) (status : Nat) (parse : String → Option Unit)
        (pe : String → Option (String × String)),
      200 ≤ status → status < 300 →
      cancel_order (.ok tok) none status "" parse pe = .ok () ∧
      cancel_order_by_client_id (.ok tok) none status "" parse pe = .ok ()) ∧
    (∀ (jwt : Except Error String) (transport : Option String) (status : Nat)
        (text : String) (parse : String → Option Unit)
        (pe : String → Option (String × String)) (e : Error),
      e ≠ Error.RestEmptyResponse →
      request_auth jwt transport status text parse pe = .error e →
      cancel_order jwt transport status text parse pe = .error e ∧
      cancel_order_by_client_id jwt transport status text parse pe = .error e) ∧
    (∀ (jwt : Except Error String) (transport : Option String) (status : Nat)
        (text : String) (parse : String → Option Unit)
        (pe : String → Option (String × String)) (v : Unit),
      request_auth jwt transport status text parse pe = .ok v →
      cancel_order jwt transport status text parse pe = .ok ()) := by
  refine ⟨?_, ?_, ?_⟩
  · intro tok status parse pe h1 h2
    constructor <;>
      simp [cancel_order, cancel_order_by_client_id, request_auth, rest_request,
        if_pos (And.intro h1 h2)]
  · intro jwt transport status text parse pe e he hr
    constructor
    · unfold cancel_order
      rw [hr]
      cases e <;> simp_all
    · unfold cancel_order_by_client_id
      rw [hr]
      cases e <;> simp_all
  · intro jwt transport status text parse pe v hr
    unfold cancel_order
    rw [hr]

/-- Witness for C10: a 204 with empty body cancels successfully, and a
concrete non-empty-response error (a 503 with empty body) propagates as
`HTTPError`. -/
theorem cancel_order_empty_response_and_propagation_witness :
    cancel_order (.ok "jwt") none 204 "" (fun _ => none) (fun _ => none) = .ok () ∧
    cancel_order_by_client_id (.ok "jwt") none 204 "" (fun _ => none)
      (fun _ => none) = .ok () ∧
    cancel_order (.ok "jwt") none 503 "" (fun _ => none) (fun _ => none) =
      .error (.HTTPError 503) :=
  ⟨(cancel_order_empty_response_and_propagation.1 "jwt" 204 _ _ (by decide)
      (by decide)).1,
    (cancel_order_empty_response_and_propagation.1 "jwt" 204 _ _ (by decide)
      (by decide)).2,
    (cancel_order_empty_response_and_propagation.2.1 (.ok "jwt") none 503 ""
      (fun _ => none) (fun _ => none) (.HTTPError 503) (by decide) (by rfl)).1⟩

/-! ## Session manager lemmas and claim theorems -/

/-- Claim C4: two subscribe operations whose `Channel` values share a wire
name cause exactly one wire-level subscribe request in total; subsequently
unsubscribing one identifier delivers `Unsubscribed` only to the departing
identifier, sends no wire unsubscribe, and leaves the other registered. -/
theorem subscribe_fanout_single_wire_request :
    ∀ (c1 c2 : Channel) (id1 id2 : Nat),
      c1.channel_name = c2.channel_name → id1 ≠ id2 →
      runReader false initWsState
        [.cmd (.Subscribe c1 id1), .cmd (.Subscribe c2 id2), .cmd (.Unsubscribe id1)] =
      (⟨[(id2, c1.channel_name)], [(c1.channel_name, (false, [(c2, id2)]))]⟩,
       [.text (.subscribe c1.channel_name id1)],
       [(id1, Message.Unsubscribed)]) := by
  intro c1 c2 id1 id2 hname hid
  simp [runReader, stepReader, initWsState, ← hname, alookup, aupsert, aset, aerase,
    List.findIdx?, hid, Ne.symm hid]

lemma aset_keys {α β : Type} [DecidableEq α] (l : List (α × β)) (k : α) (v : β) :
    (aset l k v).map Prod.fst = l.map Prod.fst := by
  induction l with
  | nil => rfl
  | cons p t ih =>
    simp only [aset, List.map_cons] at *
    rw [ih]
    congr 1
    split
    · next h => exact h.symm
    · rfl

lemma countP_pair_map (ids : List Nat) (i : Nat) (msg : Message)
    (hnd : ids.Nodup) (hi : i ∈ ids) :
    ((ids.map fun a => (a, msg)).countP fun p => p = (i, msg)) = 1 := by
  induction ids with
  | nil => cases hi
  | cons a t ih =>
    have hnd' := List.nodup_cons.mp hnd
    simp only [List.map_cons, List.countP_cons]
    rcases List.mem_cons.mp hi with rfl | hmem
    · have h0 : ((t.map fun a => (a, msg)).countP fun p => p = (i, msg)) = 0 := by
        rw [List.countP_eq_zero]
        intro p hp
        rcases List.mem_map.mp hp with ⟨b, hb, rfl⟩
        simp only [decide_eq_true_eq, Prod.mk.injEq]
        intro hcontra
        exact absurd (hcontra.1 ▸ hb) hnd'.1
      simp [h0]
    · have hne : a ≠ i := fun h => absurd (h ▸ hmem) hnd'.1
      rw [ih hnd'.2 hmem]
      simp [hne]

lemma closed_state_eq (b : Bool) (s : WsState) (fails : Nat) :
    (stepReader b s (.sock (.closed fails))).state = s := rfl

lemma closed_delivered (b : Bool) (s : WsState) (fails : Nat) :
    (stepReader b s (.sock (.closed fails))).delivered =
      (idsOf s).map fun i => (i, Message.Disconnected) := by
  simp only [stepReader, idsOf]
  induction s.by_channel with
  | nil => rfl
  | cons e t ih =>
    simp only [List.map_cons, List.flatten_cons, List.map_append, ih, List.map_map]
    rfl

lemma closed_sleeps (b : Bool) (s : WsState) (fails : Nat) :
    (stepReader b s (.sock (.closed fails))).sleeps = List.replicate fails 1 := rfl

lemma recvErr_noop (b : Bool) (s : WsState) :
    stepReader b s (.sock .recvErr) = ⟨s, [], [], [], true⟩ := rfl

/-- Claim C5 (amended): when the read yields end-of-stream, every
identifier of every tracked channel receives exactly one `Disconnected`
event, the `_connect` loop sleeps a fixed 1 second per failed attempt
until a connection succeeds, and the subscription state is untouched;
a transport error on a received message (`Err(e)`) is only logged — it
delivers nothing, changes nothing, and triggers no reconnect. -/
theorem closed_disconnect_exactly_once (b : Bool) (s : WsState) (fails : Nat)
    (hwf : WFState s) :
    (stepReader b s (.sock (.closed fails))).delivered =
      ((idsOf s).map fun i => (i, Message.Disconnected)) ∧
    (∀ i ∈ idsOf s,
      ((stepReader b s (.sock (.closed fails))).delivered.countP
        fun p => p = (i, Message.Disconnected)) = 1) ∧
    (stepReader b s (.sock (.closed fails))).sleeps = List.replicate fails 1 ∧
    (∀ t ∈ (stepReader b s (.sock (.closed fails))).sleeps, t = 1) ∧
    (stepReader b s (.sock (.closed fails))).state = s ∧
    stepReader b s (.sock .recvErr) = ⟨s, [], [], [], true⟩ := by
  refine ⟨closed_delivered b s fails, ?_, closed_sleeps b s fails, ?_, rfl, rfl⟩
  · intro i hi
    rw [closed_delivered]
    exact countP_pair_map (idsOf s) i Message.Disconnected hwf.2.2 hi
  · intro t ht
    rw [closed_sleeps] at ht
    exact List.eq_of_mem_replicate ht

lemma countP_resubs (l : List (String × (Bool × List (Channel × Nat)))) (n : String)
    (hne : ∀ e ∈ l, e.2.2 ≠ []) :
    ((l.filterMap fun e =>
        match e.2.2.head? with
        | some (_, fid) => some (SentFrame.text (.subscribe e.1 fid))
        | none => none).countP fun f =>
          match f with
          | .text (.subscribe n' _) => n' = n
          | _ => false) = (l.map fun e => e.1).count n := by
  induction l with
  | nil => rfl
  | cons e t ih =>
    have he : e.2.2 ≠ [] := hne e (List.mem_cons_self _ _)
    have iht := ih fun x hx => hne x (List.mem_cons_of_mem _ hx)
    rcases hl : e.2.2 with _ | ⟨p, tl⟩
    · exact absurd hl he
    · rcases p with ⟨pc, pid⟩
      simp only [List.filterMap_cons, hl, List.head?_cons, List.countP_cons,
        List.map_cons, List.count_cons, iht]
      by_cases hq : e.1 = n <;> simp [hq]

lemma closed_wire_count (b : Bool) (s : WsState) (fails : Nat) (n : String)
    (hne : ∀ e ∈ s.by_channel, e.2.2 ≠ []) :
    subCount n (stepReader b s (.sock (.closed fails))).wire =
      (chanKeys s).count n := by
  simp only [stepReader, subCount]
  rw [List.countP_append]
  have h1 : (List.countP
      (fun f =>
        match f with
        | .text (.subscribe n' _) => decide (n' = n)
        | _ => false)
      (if b then [SentFrame.text WireRequest.auth] else [])) = 0 := by
    cases b <;> rfl
  rw [h1, Nat.zero_add]
  exact countP_resubs s.by_channel n hne

/-- Claim C6: after a disconnect the reconnect path sends exactly one
subscribe request per distinct tracked wire channel — independent of the
number of identifiers sharing it — and the local subscriber bookkeeping is
unchanged by the disconnect. -/
theorem resubscribe_once_per_distinct_channel (b : Bool) (s : WsState)
    (fails : Nat) (hwf : WFState s) :
    (stepReader b s (.sock (.closed fails))).state = s ∧
    (∀ n ∈ chanKeys s,
      subCount n (stepReader b s (.sock (.closed fails))).wire = 1) ∧
    (∀ n, n ∉ chanKeys s →
      subCount n (stepReader b s (.sock (.closed fails))).wire = 0) := by
  refine ⟨rfl, ?_, ?_⟩
  · intro n hn
    rw [closed_wire_count b s fails n hwf.2.1]
    exact List.count_eq_one_of_mem hwf.1 hn
  · intro n hn
    rw [closed_wire_count b s fails n hwf.2.1]
    exact List.count_eq_zero_of_not_mem hn

lemma chanKeys_aset (bid : List (Nat × String))
    (l : List (String × (Bool × List (Channel × Nat)))) (k : String)
    (v : Bool × List (Channel × Nat)) :
    chanKeys ⟨bid, aset l k v⟩ = chanKeys ⟨bid, l⟩ := by
  simp only [chanKeys]
  induction l with
  | nil => rfl
  | cons p t ih =>
    simp only [aset, List.map_cons] at *
    rw [ih]
    congr 1
    split
    · next h => exact h.symm
    · rfl

lemma step_keys_mono (b : Bool) (s : WsState) (e : ReaderEvent)
    (he : ∀ id, e ≠ .cmd (.Unsubscribe id)) (n : String) (hn : n ∈ chanKeys s) :
    n ∈ chanKeys (stepReader b s e).state := by
  cases e with
  | cmdClosed => exact hn
  | cmd op =>
    cases op with
    | Stop => exact hn
    | Unsubscribe id => exact absurd rfl (he id)
    | Subscribe c id =>
      rcases h : alookup s.by_channel c.channel_name with _ | ⟨conn, lst⟩
      · simp only [stepReader, h]
        simp only [chanKeys, List.map_append]
        exact List.mem_append_left _ hn
      · simp only [stepReader, h]
        rw [show (⟨aupsert s.by_id id c.channel_name,
          aset s.by_channel c.channel_name (conn, lst ++ [(c, id)])⟩ : WsState) =
          ⟨aupsert s.by_id id c.channel_name,
            aset s.by_channel c.channel_name (conn, lst ++ [(c, id)])⟩ from rfl]
        rw [chanKeys_aset]
        exact hn
  | sock se =>
    cases se with
    | recvErr => exact hn
    | closed fails => exact hn
    | recv f =>
      cases f with
      | notif ch rd =>
        rcases ch with _ | name
        · exact hn
        · rcases h : alookup s.by_channel name with _ | ⟨conn, lst⟩
          · simpa only [stepReader, h] using hn
          · rcases hl : lst with _ | ⟨p, tl⟩ <;>
              simpa only [stepReader, h, hl, List.head?_cons] using hn
      | respOk ch =>
        rcases ch with _ | name
        · exact hn
        · rcases h : alookup s.by_channel name with _ | ⟨conn, lst⟩
          · simpa only [stepReader, h] using hn
          · simp only [stepReader, h]
            rw [chanKeys_aset]
            exact hn
      | respErr => exact hn
      | unparseable => exact hn
      | ping => exact hn
      | otherFrame => exact hn

/-- Claim C7 (amended): subscription records survive a physical disconnect
completely unchanged — in particular the `connected` flag is NOT reset to
unconfirmed, so a callback joining a previously-confirmed channel before
the server re-acknowledges receives an immediate `Connected` replay — and
a tracked wire channel's record disappears only through an explicit
`Unsubscribe` command. -/
theorem records_persist_connected_not_reset (b : Bool) :
    (∀ (s : WsState) (fails : Nat),
      (stepReader b s (.sock (.closed fails))).state = s) ∧
    (∀ (s : WsState) (c : Channel) (id : Nat) (lst : List (Channel × Nat)),
      alookup s.by_channel c.channel_name = some (true, lst) →
      (stepReader b s (.cmd (.Subscribe c id))).delivered =
        [(id, Message.Connected)]) ∧
    (∀ (s : WsState) (e : ReaderEvent) (n : String),
      n ∈ chanKeys s → n ∉ chanKeys (stepReader b s e).state →
      ∃ id, e = .cmd (.Unsubscribe id)) := by
  refine ⟨fun s fails => rfl, ?_, ?_⟩
  · intro s c id lst h
    simp [stepReader, h]
  · intro s e n hin hout
    by_contra hne
    push_neg at hne
    exact hout (step_keys_mono b s e (fun id h => hne id h) n hin)

/-- Claim C8 (amended): the session manager has no heartbeat: a received
Ping frame is ignored with no reply, no counter, and no state change, and
every frame the manager ever writes to the socket is a JSON-RPC text frame
— in particular no ping frame is ever sent and no missed-pong forced close
exists. -/
theorem no_heartbeat_ping_ignored_no_ping_sent :
    (∀ (b : Bool) (s : WsState),
      stepReader b s (.sock (.recv .ping)) = ⟨s, [], [], [], true⟩) ∧
    (∀ (b : Bool) (s : WsState) (e : ReaderEvent) (f : SentFrame),
      f ∈ (stepReader b s e).wire → ∃ r, f = .text r) := by
  refine ⟨fun b s => rfl, ?_⟩
  intro b s e f hf
  cases e with
  | cmdClosed => simp [stepReader] at hf
  | cmd op =>
    cases op with
    | Stop => simp [stepReader] at hf
    | Subscribe c id =>
      rcases h : alookup s.by_channel c.channel_name with _ | ⟨conn, lst⟩
      · simp [stepReader, h] at hf
        exact ⟨_, hf⟩
      · simp [stepReader, h] at hf
    | Unsubscribe id =>
      rcases h : alookup s.by_id id with _ | name
      · simp [stepReader, h] at hf
      · rcases h2 : alookup s.by_channel name with _ | ⟨conn, lst⟩
        · simp [stepReader, h, h2] at hf
        · rcases h3 : lst.findIdx? (fun e => e.2 = id) with _ | i
          · simp [stepReader, h, h2, h3] at hf
          · by_cases h4 : (lst.eraseIdx i).isEmpty
            · simp [stepReader, h, h2, h3, h4] at hf
              exact ⟨_, hf⟩
            · simp [stepReader, h, h2, h3, h4] at hf
  | sock se =>
    cases se with
    | recvErr => simp [stepReader] at hf
    | closed fails =>
      simp only [stepReader] at hf
      rcases List.mem_append.mp hf with h | h
      · cases b
        · simp at h
        · simp at h
          exact ⟨_, h⟩
      · rcases List.mem_filterMap.mp h with ⟨entry, hmem, heq⟩
        rcases hh : entry.2.2.head? with _ | p
        · rw [hh] at heq
          cases heq
        · rw [hh] at heq
          exact ⟨_, (Option.some_inj.mp heq).symm⟩
    | recv fr =>
      cases fr with
      | notif ch rd =>
        rcases ch with _ | name
        · simp [stepReader] at hf
        · rcases h : alookup s.by_channel name with _ | ⟨conn, lst⟩
          · simp [stepReader, h] at hf
          · rcases hl : lst with _ | ⟨p, tl⟩ <;>
              simp [stepReader, h, hl] at hf
      | respOk ch =>
        rcases ch with _ | name
        · simp [stepReader] at hf
        · rcases h : alookup s.by_channel name with _ | ⟨conn, lst⟩ <;>
            simp [stepReader, h] at hf
      | respErr => simp [stepReader] at hf
      | unparseable => simp [stepReader] at hf
      | ping => simp [stepReader] at hf
      | otherFrame => simp [stepReader] at hf

/-- Counterexample for C8 as stated: a concrete run spanning subscribe
traffic, a received Ping, a data notification, a disconnect/reconnect and a
further subscribe writes three subscribe text frames and zero ping frames;
there is no timer arm in the `select!` loop at all. -/
theorem no_ping_sent_concrete_run :
    (runReader false initWsState
      [.cmd (.Subscribe .Account 0), .sock (.recv .ping),
       .sock (.recv (.notif (some "account") .good)), .sock (.closed 2),
       .cmd (.Subscribe (.BBO "X") 1)]).2.1 =
      [.text (.subscribe "account" 0), .text (.subscribe "account" 0),
       .text (.subscribe "bbo.X" 1)] ∧
    ((runReader false initWsState
      [.cmd (.Subscribe .Account 0), .sock (.recv .ping),
       .sock (.recv (.notif (some "account") .good)), .sock (.closed 2),
       .cmd (.Subscribe (.BBO "X") 1)]).2.1.countP SentFrame.isPing) = 0 := by
  constructor <;> rfl

/-- Counterexample for C5 as stated: with identifier 0 tracked, a
transport error from `connection.next()` delivers no `Disconnected` event
and triggers no reconnect — the `Err(e)` arm only logs and continues. -/
theorem transport_error_no_disconnect_counterexample :
    0 ∈ idsOf ⟨[(0, "account")], [("account", (true, [(.Account, 0)]))]⟩ ∧
    stepReader false ⟨[(0, "account")], [("account", (true, [(.Account, 0)]))]⟩
      (.sock .recvErr) =
      ⟨⟨[(0, "account")], [("account", (true, [(.Account, 0)]))]⟩,
        [], [], [], true⟩ := by
  constructor
  · decide
  · rfl

/-- Counterexample for C7 as stated: after the end-of-stream disconnect
step the record is still marked `connected = true` (not reset to
unconfirmed), and a subscriber joining before any server
re-acknowledgment immediately receives a `Connected` replay. -/
theorem connected_flag_survives_disconnect_counterexample :
    (stepReader false ⟨[(0, "account")], [("account", (true, [(.Account, 0)]))]⟩
      (.sock (.closed 0))).state =
      ⟨[(0, "account")], [("account", (true, [(.Account, 0)]))]⟩ ∧
    (stepReader false ⟨[(0, "account")], [("account", (true, [(.Account, 0)]))]⟩
      (.cmd (.Subscribe .Account 1))).delivered = [(1, Message.Connected)] := by
  constructor <;> rfl

/-- Witness for C4 at the concrete pair `FundingData(Some "ALL")` /
`FundingData(None)` (distinct values, same wire name). -/
theorem subscribe_fanout_single_wire_request_witness :
    runReader false initWsState
      [.cmd (.Subscribe (.FundingData (some "ALL")) 0),
       .cmd (.Subscribe (.FundingData none) 1), .cmd (.Unsubscribe 0)] =
      (⟨[(1, "funding_data.ALL")],
        [("funding_data.ALL", (false, [(.FundingData none, 1)]))]⟩,
       [.text (.subscribe "funding_data.ALL" 0)],
       [(0, Message.Unsubscribed)]) :=
  subscribe_fanout_single_wire_request (.FundingData (some "ALL")) (.FundingData none) 0 1 rfl (by decide)

/-- Witness for C5 at a concrete two-channel, three-identifier state. -/
theorem closed_disconnect_exactly_once_witness :
    (stepReader false ⟨[(0, "account"), (1, "account"), (2, "positions")],
      [("account", (true, [(.Account, 0), (.Account, 1)])),
       ("positions", (false, [(.Position, 2)]))]⟩ (.sock (.closed 3))).delivered =
      [(0, Message.Disconnected), (1, Message.Disconnected),
       (2, Message.Disconnected)] ∧
    ((stepReader false ⟨[(0, "account"), (1, "account"), (2, "positions")],
      [("account", (true, [(.Account, 0), (.Account, 1)])),
       ("positions", (false, [(.Position, 2)]))]⟩ (.sock (.closed 3))).delivered.countP
      fun p => p = (1, Message.Disconnected)) = 1 ∧
    (stepReader false ⟨[(0, "account"), (1, "account"), (2, "positions")],
      [("account", (true, [(.Account, 0), (.Account, 1)])),
       ("positions", (false, [(.Position, 2)]))]⟩ (.sock (.closed 3))).sleeps =
      [1, 1, 1] :=
  ⟨(closed_disconnect_exactly_once false (⟨[(0, "account"), (1, "account"), (2, "positions")], [("account", (true, [(.Account, 0), (.Account, 1)])), ("positions", (false, [(.Position, 2)]))]⟩ : WsState) 3 (by decide)).1,
    (closed_disconnect_exactly_once false (⟨[(0, "account"), (1, "account"), (2, "positions")], [("account", (true, [(.Account, 0), (.Account, 1)])), ("positions", (false, [(.Position, 2)]))]⟩ : WsState) 3 (by decide)).2.1 1 (by decide),
    (closed_disconnect_exactly_once false (⟨[(0, "account"), (1, "account"), (2, "positions")], [("account", (true, [(.Account, 0), (.Account, 1)])), ("positions", (false, [(.Position, 2)]))]⟩ : WsState) 3 (by decide)).2.2.1⟩

/-- Witness for C6: with two identifiers fanned out on "account" and one
on "positions", the reconnect sends exactly one subscribe each. -/
theorem resubscribe_once_per_distinct_channel_witness :
    subCount "account" (stepReader false
      ⟨[(0, "account"), (1, "account"), (2, "positions")],
       [("account", (true, [(.Account, 0), (.Account, 1)])),
        ("positions", (false, [(.Position, 2)]))]⟩ (.sock (.closed 0))).wire = 1 ∧
    subCount "positions" (stepReader false
      ⟨[(0, "account"), (1, "account"), (2, "positions")],
       [("account", (true, [(.Account, 0), (.Account, 1)])),
        ("positions", (false, [(.Position, 2)]))]⟩ (.sock (.closed 0))).wire = 1 ∧
    subCount "bbo.X" (stepReader false
      ⟨[(0, "account"), (1, "account"), (2, "positions")],
       [("account", (true, [(.Account, 0), (.Account, 1)])),
        ("positions", (false, [(.Position, 2)]))]⟩ (.sock (.closed 0))).wire = 0 :=
  ⟨(resubscribe_once_per_distinct_channel false (⟨[(0, "account"), (1, "account"), (2, "positions")], [("account", (true, [(.Account, 0), (.Account, 1)])), ("positions", (false, [(.Position, 2)]))]⟩ : WsState) 0 (by decide)).2.1 "account"
      (by decide),
    (resubscribe_once_per_distinct_channel false (⟨[(0, "account"), (1, "account"), (2, "positions")], [("account", (true, [(.Account, 0), (.Account, 1)])), ("positions", (false, [(.Position, 2)]))]⟩ : WsState) 0 (by decide)).2.1 "positions"
      (by decide),
    (resubscribe_once_per_distinct_channel false (⟨[(0, "account"), (1, "account"), (2, "positions")], [("account", (true, [(.Account, 0), (.Account, 1)])), ("positions", (false, [(.Position, 2)]))]⟩ : WsState) 0 (by decide)).2.2 "bbo.X"
      (by decide)⟩

/-- Witness for C7 at a concrete connected record. -/
theorem records_persist_connected_not_reset_witness :
    (stepReader false ⟨[(0, "account")],
      [("account", (true, [(.Account, 0)]))]⟩ (.sock (.closed 2))).state =
      ⟨[(0, "account")], [("account", (true, [(.Account, 0)]))]⟩ ∧
    (stepReader false ⟨[(0, "account")],
      [("account", (true, [(.Account, 0)]))]⟩
      (.cmd (.Subscribe .Account 5))).delivered = [(5, Message.Connected)] ∧
    (∃ id, ReaderEvent.cmd (.Unsubscribe 0) = .cmd (.Unsubscribe id)) :=
  ⟨(records_persist_connected_not_reset false).1 (⟨[(0, "account")], [("account", (true, [(.Account, 0)]))]⟩ : WsState) 2,
    (records_persist_connected_not_reset false).2.1 (⟨[(0, "account")], [("account", (true, [(.Account, 0)]))]⟩ : WsState) .Account 5 [(.Account, 0)] rfl,
    (records_persist_connected_not_reset false).2.2 (⟨[(0, "account")], [("account", (true, [(.Account, 0)]))]⟩ : WsState) (.cmd (.Unsubscribe 0))
      "account" (by decide) (by decide)⟩

/-- Witness for C8: the Ping no-op applied at a concrete state, and the
all-frames-are-text conjunct applied to the frame sent by a concrete
subscribe. -/
theorem no_heartbeat_ping_ignored_no_ping_sent_witness :
    stepReader false ⟨[(0, "account")], [("account", (true, [(.Account, 0)]))]⟩
      (.sock (.recv .ping)) =
      ⟨⟨[(0, "account")], [("account", (true, [(.Account, 0)]))]⟩,
        [], [], [], true⟩ ∧
    (∃ r, SentFrame.text (.subscribe "account" 0) = SentFrame.text r) :=
  ⟨no_heartbeat_ping_ignored_no_ping_sent.1 false
      ⟨[(0, "account")], [("account", (true, [(.Account, 0)]))]⟩,
    no_heartbeat_ping_ignored_no_ping_sent.2 false initWsState
      (.cmd (.Subscribe .Account 0)) (.text (.subscribe "account" 0))
      (by decide)⟩

end Paradex
